import Mathlib

/-!
Shallow embedding of `internal/upload/pulp/pulp.go`: a thin client wrapper
around the pulp content service (artifact upload, ostree repository listing
and creation, commit import, distribution, and task-state polling).

The generated SDK (`pulpclient`) is an external dependency.  Each wrapper
operation issues exactly one remote call through it; following the design
note of the specification ("define a narrow internal interface with exactly
the methods this wrapper calls, allowing a test double to substitute the
real network client"), every remote endpoint is passed in as a function
argument whose result type mirrors the Go triple `(res, resp, err)` returned
by `Execute()`.  Everything else is translated line by line from the source.
-/

namespace Pulp

instance {ε α : Type} [DecidableEq ε] [DecidableEq α] : DecidableEq (Except ε α) := fun x y =>
  match x, y with
  | .error a, .error b => if h : a = b then isTrue (by rw [h]) else isFalse (by simp [h])
  | .error _, .ok _ => isFalse (by simp)
  | .ok _, .error _ => isFalse (by simp)
  | .ok a, .ok b => if h : a = b then isTrue (by rw [h]) else isFalse (by simp [h])

/-- An HTTP response as this wrapper observes it: only the body is ever
read, and reading it can fail (mirroring `io.ReadAll`). -/
structure HttpResponse where
  body : Except String String
deriving DecidableEq

/-- The outcome of `Execute()` on a prepared SDK request, mirroring the Go
triple `(res, resp, err)`: either `err != nil` together with the (possibly
`nil`) response, or a successful result value (the response is never used by
the wrapper on success, but is carried for faithfulness). -/
inductive ExecResult (α : Type) where
  | err (msg : String) (resp : Option HttpResponse)
  | ok (value : α) (resp : Option HttpResponse)
deriving DecidableEq

/-- The wrapper's error taxonomy.  Each constructor corresponds to exactly
one error-return site in the source: `ioError` to the `os.Open` failure in
`UploadFile`, `remoteError` to the `fmt.Errorf("...: %s (%s)", err, readBody(resp))`
wrappers (operation text, underlying message, captured response body), and
`emptyStateError` to the empty-state check in `TaskState`. -/
inductive PulpError where
  | ioError (msg : String)
  | remoteError (operation underlying responseBody : String)
  | emptyStateError (task : String)
deriving DecidableEq

/-- `readBody` returns the body of a response as a string and ignores
errors: a `nil` response or a failed body read both give `""`. -/
def readBody : Option HttpResponse → String
  | none => ""
  | some r =>
    match r.body with
    | .error _ => ""
    | .ok b => b

/-- Username/password pair; `Option Credentials` models the nilable pointer
passed to `NewClient`. -/
structure Credentials where
  username : String
  password : String
deriving DecidableEq

/-- `pulpclient.BasicAuth` value stored in the request context. -/
structure BasicAuth where
  userName : String
  password : String
deriving DecidableEq

/-- One entry of `pulpclient.ServerConfigurations`. -/
structure ServerConfiguration where
  url : String
deriving DecidableEq

/-- The parts of `pulpclient.Configuration` this wrapper sets. -/
structure Configuration where
  servers : List ServerConfiguration
deriving DecidableEq

/-- The request context built by `NewClient`: the server-index and
basic-auth values attached via `context.WithValue`. -/
structure Ctx where
  serverIndex : Option Nat
  basicAuth : Option BasicAuth
deriving DecidableEq

/-- The wrapper client: the SDK configuration and the request context. -/
structure Client where
  config : Configuration
  ctx : Ctx
deriving DecidableEq

/-- `NewClient(url, creds)`: builds a context selecting server index 0,
configures a single server endpoint with the given URL, and attaches
basic-auth metadata to the context exactly when `creds != nil`.  A pure
construction: no network request is issued. -/
def NewClient (url : String) (creds : Option Credentials) : Client :=
  let ctx : Ctx := { serverIndex := some 0, basicAuth := none }
  let pulpConfig : Configuration := { servers := [{ url := url }] }
  let ctx :=
    match creds with
    | none => ctx
    | some c => { ctx with basicAuth := some { userName := c.username, password := c.password } }
  { config := pulpConfig, ctx := ctx }

/-- `pulpclient.ArtifactsAPI` response for artifact creation: the generated
model carries `PulpHref *string`, with `GetPulpHref()` returning `""` when
the field is unset. -/
structure ArtifactResponse where
  pulpHref : Option String
deriving DecidableEq

/-- `GetPulpHref()` for `ArtifactResponse`: the value, or `""` when unset. -/
def ArtifactResponse.getPulpHref (r : ArtifactResponse) : String :=
  r.pulpHref.getD ""

/-- An open local file handle, as returned by `os.Open`. -/
structure FileHandle where
  path : String
deriving DecidableEq

/-- The observable outcome of `UploadFile`: the returned value/error pair
together with the effect trace the claims talk about — whether the remote
artifact-create call was issued at all. -/
structure UploadOutcome where
  result : Except PulpError String
  remoteCalled : Bool
deriving DecidableEq

/-- `UploadFile(path)`: opens the file at `path` (the `osOpen` double of
`os.Open`; a failure is returned unchanged as the Go code returns `err`),
then uploads it through the artifact-create endpoint and returns the href
of the new artifact.  On a remote failure the error message carries the
response body via `readBody`. -/
def Client.UploadFile (osOpen : String → Except String FileHandle)
    (artifactsCreate : FileHandle → ExecResult ArtifactResponse)
    (path : String) : UploadOutcome :=
  match osOpen path with
  | .error e => { result := .error (.ioError e), remoteCalled := false }
  | .ok fp =>
    match artifactsCreate fp with
    | .err msg resp =>
      { result := .error (.remoteError ("failed to upload file " ++ path) msg (readBody resp)),
        remoteCalled := true }
    | .ok res _ => { result := .ok res.getPulpHref, remoteCalled := true }

/-- `pulpclient.OstreeOstreeRepositoryResponse`: the repository model
returned by the list and create endpoints (`Name` is required; `PulpHref`
is optional with `GetPulpHref()` defaulting to `""`). -/
structure OstreeOstreeRepositoryResponse where
  name : String
  pulpHref : Option String
deriving DecidableEq

/-- `GetPulpHref()` for a repository response: the value, or `""` when unset. -/
def OstreeOstreeRepositoryResponse.getPulpHref (r : OstreeOstreeRepositoryResponse) : String :=
  r.pulpHref.getD ""

/-- `pulpclient.PaginatedostreeOstreeRepositoryResponseList`: the paginated
list response; `GetCount()` is used by the Go code only as a map-capacity
hint. -/
structure RepoListRes where
  count : Nat
  results : List OstreeOstreeRepositoryResponse
deriving DecidableEq

/-- One Go map assignment `m[k] = v`, modelled on an association list:
replaces the value when the key is already present, appends otherwise. -/
def mapAssign (m : List (String × String)) (k v : String) : List (String × String) :=
  if m.any (fun p => p.1 == k) then
    m.map (fun p => if p.1 == k then (p.1, v) else p)
  else m ++ [(k, v)]

/-- `ListOSTreeRepositories()`: returns a map (repository name -> pulp href)
of existing ostree repositories, built by iterating over the list response
and assigning `repos[repo.Name] = repo.GetPulpHref()`; any remote failure is
wrapped as a `remoteError` and no mapping is returned. -/
def Client.ListOSTreeRepositories (exec : ExecResult RepoListRes) :
    Except PulpError (List (String × String)) :=
  match exec with
  | .err msg resp =>
    .error (.remoteError "repository list request returned an error" msg (readBody resp))
  | .ok list _ =>
    .ok (list.results.foldl (fun repos repo => mapAssign repos repo.name repo.getPulpHref) [])

/-- `pulpclient.NullableString`: `none` means the field is unset (absent
from the payload), `some none` an explicit JSON null, `some (some s)` the
value `s`. -/
abbrev NullableString := Option (Option String)

/-- `pulpclient.NewNullableString(p)`: marks the field as set, holding the
pointed-to value (`none` for a nil pointer, i.e. explicit null). -/
def NewNullableString (p : Option String) : NullableString := some p

/-- `pulpclient.OstreeOstreeRepository`: the create-request payload; its
zero value leaves `description` unset. -/
structure OstreeOstreeRepository where
  name : String
  description : NullableString
deriving DecidableEq

/-- The request payload built by `CreateOSTreeRepository` before
`Execute()`: `Name` is always set; `Description` is set (to a non-null
value) only when the description is non-empty, and left unset otherwise. -/
def createRepositoryPayload (name description : String) : OstreeOstreeRepository :=
  let repo : OstreeOstreeRepository := { name := name, description := none }
  if description != "" then
    { repo with description := NewNullableString (some description) }
  else repo

/-- `CreateOSTreeRepository(name, description)`: creates a new ostree
repository and returns the pulp href; remote failures are wrapped as
`remoteError`. -/
def Client.CreateOSTreeRepository
    (exec : OstreeOstreeRepository → ExecResult OstreeOstreeRepositoryResponse)
    (name description : String) : Except PulpError String :=
  match exec (createRepositoryPayload name description) with
  | .err msg resp => .error (.remoteError "repository creation failed" msg (readBody resp))
  | .ok result _ => .ok result.getPulpHref

/-- `pulpclient.OstreeImportAll`: the import-all request payload, holding
the artifact href and the archive's internal repository name. -/
structure OstreeImportAll where
  artifact : String
  repository_name : String
deriving DecidableEq

/-- `pulpclient.NewOstreeImportAll(artifact, repositoryName)`: plain
constructor of the generated SDK setting both required fields. -/
def NewOstreeImportAll (artifact repositoryName : String) : OstreeImportAll :=
  { artifact := artifact, repository_name := repositoryName }

/-- The `importOptions` local of `ImportCommit`: built from the commit href
and the hard-coded archive root name `"repo"` ("our commit archives always
use the repo name `repo`"). -/
def importCommitOptions (commitHref : String) : OstreeImportAll :=
  NewOstreeImportAll commitHref "repo"

/-- An asynchronous-operation response carrying the task href (`result.Task`). -/
structure TaskHandleRes where
  task : String
deriving DecidableEq

/-- `ImportCommit(commitHref, repoHref)`: triggers the asynchronous import
of an uploaded commit archive into the repository at `repoHref` (the
endpoint double takes the path argument `repoHref` and the request payload)
and returns the import task's href. -/
def Client.ImportCommit (exec : String → OstreeImportAll → ExecResult TaskHandleRes)
    (commitHref repoHref : String) : Except PulpError String :=
  match exec repoHref (importCommitOptions commitHref) with
  | .err msg resp => .error (.remoteError "ostree commit import failed" msg (readBody resp))
  | .ok result _ => .ok result.task

/-- `type TaskState string`: task states are strings; the seven known
values are the constants below. -/
abbrev TaskState := String

def TASK_WAITING : TaskState := "waiting"

def TASK_SKIPPED : TaskState := "skipped"

def TASK_RUNNING : TaskState := "running"

def TASK_COMPLETED : TaskState := "completed"

def TASK_FAILED : TaskState := "failed"

def TASK_CANCELED : TaskState := "canceled"

def TASK_CANCELING : TaskState := "canceling"

/-- The task-read response: `GetState()` yields the state string (`""` when
unset). -/
structure TaskRes where
  state : String
deriving DecidableEq

/-- `TaskState(task)`: reads the task and returns its state.  A remote
failure is wrapped as `remoteError` (message plus captured body); an empty
state string is rejected with `emptyStateError`; any other state string is
returned unchanged as a `TaskState`. -/
def Client.TaskState (tasksRead : ExecResult TaskRes) (task : String) :
    Except PulpError Pulp.TaskState :=
  match tasksRead with
  | .err msg resp =>
    .error (.remoteError ("error reading task " ++ task) msg (readBody resp))
  | .ok res _ =>
    let state := res.state
    if state == "" then .error (.emptyStateError task)
    else .ok (state : Pulp.TaskState)

/-- `TaskWaitingOrRunning(task)`: `true` when the task is in the running or
waiting state; any error from `TaskState` is logged and swallowed,
returning `false`. -/
def Client.TaskWaitingOrRunning (tasksRead : ExecResult TaskRes) (task : String) : Bool :=
  match Client.TaskState tasksRead task with
  | .error _ => false
  | .ok state => state == TASK_RUNNING || state == TASK_WAITING

/-! Helper lemmas. -/

/-- Folding Go map assignments over repositories with pairwise-distinct
names, starting from an accumulator whose keys avoid those names, appends
exactly one `(name, href)` pair per repository. -/
theorem foldl_mapAssign_eq_append (l : List OstreeOstreeRepositoryResponse)
    (acc : List (String × String))
    (hnd : (l.map (fun r => r.name)).Nodup)
    (hdisj : ∀ r ∈ l, ∀ p ∈ acc, p.1 ≠ r.name) :
    l.foldl (fun repos repo => mapAssign repos repo.name repo.getPulpHref) acc =
      acc ++ l.map (fun r => (r.name, r.getPulpHref)) := by
  induction l generalizing acc with
  | nil => simp
  | cons r l ih =>
    simp only [List.map_cons, List.nodup_cons, List.mem_map] at hnd
    have hassign : mapAssign acc r.name r.getPulpHref = acc ++ [(r.name, r.getPulpHref)] := by
      unfold mapAssign
      have hany : acc.any (fun p => p.1 == r.name) = false := by
        simp only [List.any_eq_false, beq_iff_eq]
        intro p hp
        exact hdisj r (List.mem_cons_self r l) p hp
      simp [hany]
    have hdisj2 : ∀ r2 ∈ l, ∀ p ∈ acc ++ [(r.name, r.getPulpHref)], p.1 ≠ r2.name := by
      intro r2 hr2 p hp
      rcases List.mem_append.mp hp with hpa | hpb
      · exact hdisj r2 (List.mem_cons_of_mem r hr2) p hpa
      · have hp1 : p.1 = r.name := by
          simp only [List.mem_singleton] at hpb
          rw [hpb]
        rw [hp1]
        intro hcontra
        exact hnd.1 ⟨r2, hr2, hcontra.symm⟩
    calc (r :: l).foldl (fun repos repo => mapAssign repos repo.name repo.getPulpHref) acc
        = l.foldl (fun repos repo => mapAssign repos repo.name repo.getPulpHref)
            (acc ++ [(r.name, r.getPulpHref)]) := by rw [List.foldl_cons, hassign]
      _ = acc ++ [(r.name, r.getPulpHref)] ++ l.map (fun r2 => (r2.name, r2.getPulpHref)) :=
            ih (acc ++ [(r.name, r.getPulpHref)]) hnd.2 hdisj2
      _ = acc ++ (r :: l).map (fun r2 => (r2.name, r2.getPulpHref)) := by simp

/-! Claim theorems. -/

/-- C1 (amended): `TaskState` fails with a `remoteError` when the remote
read fails, fails with `emptyStateError` exactly when the server returns an
empty state string, and otherwise returns the server-state string unchanged
as a `TaskState`; in particular each of the seven known server-state
strings maps to its enumerated constant. -/
theorem taskState_spec (task msg : String) (resp : Option HttpResponse) :
    Client.TaskState (.err msg resp) task =
      .error (.remoteError ("error reading task " ++ task) msg (readBody resp)) ∧
    Client.TaskState (.ok { state := "" } resp) task = .error (.emptyStateError task) ∧
    (∀ s : String, s ≠ "" → Client.TaskState (.ok { state := s } resp) task = .ok s) ∧
    Client.TaskState (.ok { state := "waiting" } resp) task = .ok TASK_WAITING ∧
    Client.TaskState (.ok { state := "skipped" } resp) task = .ok TASK_SKIPPED ∧
    Client.TaskState (.ok { state := "running" } resp) task = .ok TASK_RUNNING ∧
    Client.TaskState (.ok { state := "completed" } resp) task = .ok TASK_COMPLETED ∧
    Client.TaskState (.ok { state := "failed" } resp) task = .ok TASK_FAILED ∧
    Client.TaskState (.ok { state := "canceled" } resp) task = .ok TASK_CANCELED ∧
    Client.TaskState (.ok { state := "canceling" } resp) task = .ok TASK_CANCELING := by
  refine ⟨rfl, rfl, ?_, rfl, rfl, rfl, rfl, rfl, rfl, rfl⟩
  intro s hs
  simp [Client.TaskState, hs]

/-- Witness for C1 (amended), instantiating the pass-through clause at the
concrete non-empty state string `restarting`. -/
theorem taskState_spec_witness :
    Client.TaskState (.ok { state := "restarting" } none) "tasks/1/" = .ok "restarting" :=
  (taskState_spec "tasks/1/" "boom" none).2.2.1 "restarting" (by decide)

/-- C1 counterexample: for the unrecognized non-empty state string
`bogus-state` the code performs no membership check against the known set:
`TaskState` succeeds with that very string instead of failing with
`emptyStateError`. -/
theorem taskState_unrecognized_counterexample :
    Client.TaskState (.ok { state := "bogus-state" } none) "tasks/1/" = .ok "bogus-state" ∧
    Client.TaskState (.ok { state := "bogus-state" } none) "tasks/1/" ≠
      .error (.emptyStateError "tasks/1/") := by
  refine ⟨rfl, ?_⟩
  decide

/-- C2: `TaskWaitingOrRunning` returns `true` exactly when the state query
succeeds with state `waiting` or `running`; it returns `false` for every
other state (empty included) and `false`, never an error, when the
underlying query fails. -/
theorem taskWaitingOrRunning_spec (task msg s : String) (resp : Option HttpResponse) :
    Client.TaskWaitingOrRunning (.err msg resp) task = false ∧
    Client.TaskWaitingOrRunning (.ok { state := "" } resp) task = false ∧
    Client.TaskWaitingOrRunning (.ok { state := TASK_WAITING } resp) task = true ∧
    Client.TaskWaitingOrRunning (.ok { state := TASK_RUNNING } resp) task = true ∧
    (s ≠ TASK_WAITING → s ≠ TASK_RUNNING →
      Client.TaskWaitingOrRunning (.ok { state := s } resp) task = false) := by
  refine ⟨rfl, rfl, rfl, rfl, ?_⟩
  intro hw hr
  by_cases hs : s = ""
  · subst hs
    rfl
  · simp [Client.TaskWaitingOrRunning, Client.TaskState, hs, TASK_RUNNING, TASK_WAITING]
    exact ⟨hr, hw⟩

/-- Witness for C2, instantiating the catch-all clause at the terminal
state `completed`. -/
theorem taskWaitingOrRunning_spec_witness :
    Client.TaskWaitingOrRunning (.ok { state := "completed" } none) "tasks/1/" = false :=
  (taskWaitingOrRunning_spec "tasks/1/" "boom" "completed" none).2.2.2.2 (by decide) (by decide)

/-- C3: the import payload built by `ImportCommit` always carries the
archive root name `repo`, and the call's outcome depends on the remote
endpoint only through payloads whose `repository_name` is `repo` — no
caller input (neither `commitHref` nor `repoHref`) can change it. -/
theorem importCommit_archive_root_constant (commitHref repoHref : String)
    (exec exec2 : String → OstreeImportAll → ExecResult TaskHandleRes)
    (h : ∀ r p, p.repository_name = "repo" → exec r p = exec2 r p) :
    (importCommitOptions commitHref).repository_name = "repo" ∧
    Client.ImportCommit exec commitHref repoHref =
      Client.ImportCommit exec2 commitHref repoHref := by
  refine ⟨rfl, ?_⟩
  unfold Client.ImportCommit
  rw [h repoHref (importCommitOptions commitHref) rfl]

/-- Witness for C3 at concrete hrefs and endpoint doubles. -/
theorem importCommit_archive_root_constant_witness :
    (importCommitOptions "artifacts/7/").repository_name = "repo" ∧
    Client.ImportCommit (fun _ _ => .ok { task := "tasks/9/" } none) "artifacts/7/" "repos/3/" =
      Client.ImportCommit (fun _ _ => .ok { task := "tasks/9/" } none) "artifacts/7/"
        "repos/3/" :=
  importCommit_archive_root_constant "artifacts/7/" "repos/3/"
    (fun _ _ => .ok { task := "tasks/9/" } none) (fun _ _ => .ok { task := "tasks/9/" } none)
    (fun _ _ _ => rfl)

/-- C4: on a successful list response whose repository names are pairwise
distinct, `ListOSTreeRepositories` returns exactly one `(name, href)` entry
per repository — so exactly N entries, with keys the repository names and
values the corresponding hrefs — and on a remote failure it returns a
`remoteError` and no mapping. -/
theorem listRepositories_spec (list : RepoListRes) (msg : String) (resp : Option HttpResponse)
    (hnd : (list.results.map (fun r => r.name)).Nodup) :
    Client.ListOSTreeRepositories (.ok list resp) =
      .ok (list.results.map (fun r => (r.name, r.getPulpHref))) ∧
    (list.results.map (fun r => (r.name, r.getPulpHref))).length = list.results.length ∧
    (list.results.map (fun r => (r.name, r.getPulpHref))).map Prod.fst =
      list.results.map (fun r => r.name) ∧
    Client.ListOSTreeRepositories (.err msg resp) =
      .error (.remoteError "repository list request returned an error" msg (readBody resp)) := by
  refine ⟨?_, List.length_map _ _, ?_, rfl⟩
  · simp only [Client.ListOSTreeRepositories]
    rw [foldl_mapAssign_eq_append list.results [] hnd (by intro r hr p hp; cases hp)]
    rw [List.nil_append]
  · rw [List.map_map]
    rfl

/-- Witness for C4 at a concrete two-repository response with distinct
names. -/
theorem listRepositories_spec_witness :
    Client.ListOSTreeRepositories
        (.ok { count := 2,
               results := [{ name := "fedora", pulpHref := some "repos/1/" },
                           { name := "centos", pulpHref := some "repos/2/" }] } none) =
      .ok [("fedora", "repos/1/"), ("centos", "repos/2/")] := by
  have h := (listRepositories_spec
      { count := 2,
        results := [{ name := "fedora", pulpHref := some "repos/1/" },
                    { name := "centos", pulpHref := some "repos/2/" }] } "boom" none
      (by decide)).1
  simpa [OstreeOstreeRepositoryResponse.getPulpHref] using h

/-- C5: `CreateOSTreeRepository` with an empty description builds a payload
whose description field is unset — neither present-but-empty nor an
explicit null — while any non-empty description is sent as a set, non-null
value. -/
theorem createRepository_description_spec (name d : String) (h : d ≠ "") :
    (createRepositoryPayload name "").description = none ∧
    (createRepositoryPayload name "").description ≠ some (some "") ∧
    (createRepositoryPayload name "").description ≠ some none ∧
    (createRepositoryPayload name "").name = name ∧
    (createRepositoryPayload name d).description = some (some d) ∧
    (createRepositoryPayload name d).name = name := by
  refine ⟨rfl, by simp [createRepositoryPayload], by simp [createRepositoryPayload], rfl, ?_, ?_⟩
  · simp [createRepositoryPayload, NewNullableString, h]
  · simp [createRepositoryPayload, h]

/-- Witness for C5 at the concrete description `mirror of fedora`. -/
theorem createRepository_description_spec_witness :
    (createRepositoryPayload "fedora" "").description = none ∧
    (createRepositoryPayload "fedora" "mirror of fedora").description =
      some (some "mirror of fedora") :=
  ⟨(createRepository_description_spec "fedora" "mirror of fedora" (by decide)).1,
   (createRepository_description_spec "fedora" "mirror of fedora" (by decide)).2.2.2.2.1⟩

/-- C6: `UploadFile` returns the open error (an `ioError`) and issues no
remote call when the local file cannot be opened; it returns a
`remoteError` carrying the captured response body when the server rejects
the upload; and on success it returns the server-assigned href. -/
theorem uploadFile_error_spec (path e msg : String) (resp : Option HttpResponse)
    (create : FileHandle → ExecResult ArtifactResponse) (fp : FileHandle)
    (res : ArtifactResponse) :
    Client.UploadFile (fun _ => .error e) create path =
      { result := .error (.ioError e), remoteCalled := false } ∧
    Client.UploadFile (fun _ => .ok fp) (fun _ => .err msg resp) path =
      { result := .error (.remoteError ("failed to upload file " ++ path) msg (readBody resp)),
        remoteCalled := true } ∧
    Client.UploadFile (fun _ => .ok fp) (fun _ => .ok res none) path =
      { result := .ok res.getPulpHref, remoteCalled := true } :=
  ⟨rfl, rfl, rfl⟩

/-- C7 counterexample: a valid local file and a successful server response
that carries no href make `UploadFile` return the empty string — not a
non-empty href. -/
theorem uploadFile_empty_href_counterexample :
    (Client.UploadFile (fun p => .ok { path := p })
        (fun _ => .ok { pulpHref := none } none) "commit.tar").result = .ok "" := rfl

/-- C7 (amended): for every valid local file, `UploadFile` returns exactly
the href carried by the successful server response, hence a non-empty href
whenever the response's href is non-empty; no non-emptiness check is
performed by the wrapper itself. -/
theorem uploadFile_nonempty_href (path : String) (fp : FileHandle) (res : ArtifactResponse)
    (resp : Option HttpResponse) (h : res.getPulpHref ≠ "") :
    (Client.UploadFile (fun _ => .ok fp) (fun _ => .ok res resp) path).result =
      .ok res.getPulpHref ∧
    (Client.UploadFile (fun _ => .ok fp) (fun _ => .ok res resp) path).result ≠ .ok "" := by
  refine ⟨rfl, ?_⟩
  simp [Client.UploadFile, h]

/-- Witness for C7 (amended) at a concrete file and href. -/
theorem uploadFile_nonempty_href_witness :
    (Client.UploadFile (fun p => .ok { path := p })
        (fun _ => .ok { pulpHref := some "artifacts/42/" } none) "commit.tar").result ≠
      .ok "" :=
  (uploadFile_nonempty_href "commit.tar" { path := "commit.tar" }
    { pulpHref := some "artifacts/42/" } none (by decide)).2

/-- C8: the response body folded into a remote error is captured
best-effort — an absent response or a failed body read yields the empty
string, a readable body is used verbatim — and the primary error message is
carried unchanged in the `remoteError` regardless of the body outcome. -/
theorem readBody_best_effort (b e msg task : String) (resp : Option HttpResponse) :
    readBody none = "" ∧
    readBody (some { body := .error e }) = "" ∧
    readBody (some { body := .ok b }) = b ∧
    Client.TaskState (.err msg resp) task =
      .error (.remoteError ("error reading task " ++ task) msg (readBody resp)) ∧
    Client.TaskState (.err msg (some { body := .error e })) task =
      .error (.remoteError ("error reading task " ++ task) msg "") ∧
    Client.TaskState (.err msg none) task =
      .error (.remoteError ("error reading task " ++ task) msg "") :=
  ⟨rfl, rfl, rfl, rfl, rfl, rfl⟩

/-- C9: `NewClient` is a pure constructor — it always succeeds without any
network request — configuring exactly one server endpoint, selecting server
index 0 in the request context, and attaching basic-auth metadata exactly
when credentials are supplied. -/
theorem newClient_spec (url : String) (creds : Option Credentials) :
    (NewClient url creds).config.servers = [{ url := url }] ∧
    (NewClient url creds).config.servers.length = 1 ∧
    (NewClient url creds).ctx.serverIndex = some 0 ∧
    (NewClient url creds).ctx.basicAuth =
      creds.map (fun c => { userName := c.username, password := c.password }) := by
  cases creds <;> exact ⟨rfl, rfl, rfl, rfl⟩

/-- C10: any non-empty state string — recognized or not — is returned
unchanged by `TaskState` as a successful `TaskState` value; no membership
check against the seven known states is performed. -/
theorem taskState_passthrough (s task : String) (resp : Option HttpResponse) (h : s ≠ "") :
    Client.TaskState (.ok { state := s } resp) task = .ok s := by
  simp [Client.TaskState, h]

/-- Witness for C10 at the concrete state string `bogus`, which is outside
the seven-member known set. -/
theorem taskState_passthrough_witness :
    Client.TaskState (.ok { state := "bogus" } none) "tasks/1/" = .ok "bogus" :=
  taskState_passthrough "bogus" "tasks/1/" none (by decide)

end Pulp
